import Mathlib

/-!
# Verification of the `Html5QrcodeScanner` orchestration core

Shallow embedding of the scanner orchestration class
(`src/unnamed/part_000`, class `Html5QrcodeScanner`): the mode-swap
handler (`createSectionSwap`), the auto-start-on-swap helper
(`startCameraScanIfPermissionExistsOnSwap`), the camera list UI
(`createCameraListUi`), the camera selection / start-button logic
(`renderCameraSelection`), `clear`, the constructor with `createConfig`,
and the success-callback wrapper installed by `render`.

The class runs on the single-threaded browser event loop.  Asynchronous
platform calls (permission re-check, device enumeration, `start`, `stop`)
are embedded by passing their eventual outcome as an explicit argument to
the handler function; the handler applies the synchronous prefix, then the
continuation for that outcome, in the order the event loop would run them.
-/

namespace HtmlQrcodeScanner

/-- `Html5QrcodeScanType`: the two input modes (camera scan, file scan). -/
inductive ScanType
  | camera
  | file
deriving DecidableEq, Repr

/-- `Html5QrcodeScannerStatus` enum from the source. -/
inductive ScannerStatus
  | statusDefault
  | statusSuccess
  | statusWarning
  | statusRequestingPermission
deriving DecidableEq, Repr

/-- The header text values the embedded code paths can display.
Concrete wording lives in `Html5QrcodeScannerStrings` (not under `src/`);
only the identity of each string matters, so each is a constructor, with
the platform error text carried verbatim by `errText`. -/
inductive HeaderText
  | requestingPermission
  | noCameraFound
  | errText (e : String)
  | lastMatch (t : String)
  | loadingImage
deriving DecidableEq, Repr

/-- State of the scanner touched by the mode-swap handler of
`createSectionSwap` and by `startCameraScanIfPermissionExistsOnSwap`.

`this.permissionButton` is declared `null` (line 193) and never assigned
anywhere in the class (the buttons built by `createPermissionButton` are
local variables), so the field is the constant `null` and is not part of
the state. -/
structure ScannerState where
  /-- `this.currentScanType`. -/
  currentScanType : ScanType
  /-- `this.sectionSwapAllowed` (the SwapGuard). -/
  sectionSwapAllowed : Bool
  /-- `this.verbose`. -/
  verbose : Bool
  /-- `this.scpCameraScanRegion.style.display` equals `"block"`. -/
  scpCameraRegionVisible : Bool
  /-- the `FileSelectionUi` is shown (`show()` / `hide()`). -/
  fileSelectionUiVisible : Bool
  /-- pending file-selection value (`resetValue()` clears it). -/
  fileSelectionValue : Option String
  /-- displayed header message: `none` when `display = "none"`
  (`resetHeaderMessage`), `some (t, st)` after `setHeaderMessage`. -/
  headerMessage : Option (HeaderText × ScannerStatus)
  /-- `switchScanTypeLink.innerText = TEXT_IF_CAMERA_SCAN_SELECTED`. -/
  switchLinkTextCamera : Bool
  /-- which asset image the scan region shows
  (`insertCameraScanImageToScanRegion` / `insertFileScanImageToScanRegion`). -/
  scanRegionImage : ScanType
  /-- `persistedDataManager.hasCameraPermissions()` / `setHasPermission`. -/
  storedHasPermission : Bool
  /-- messages passed to `logger.logError`. -/
  errorLog : List String
deriving DecidableEq, Repr

/-- Append a message to the error log (`logger.logError`). -/
def pushLog (s : ScannerState) (msg : String) : ScannerState :=
  { s with errorLog := s.errorLog ++ [msg] }

/-- Erase the log component, to state that a handler changed nothing
except (possibly) logging. -/
def stripLog (s : ScannerState) : ScannerState :=
  { s with errorLog := [] }

/-- Outcome of the asynchronous non-prompting permission re-check
`CameraPermissions.hasPermissions()`. -/
inductive PermCheckOutcome
  | resolved (granted : Bool)
  | failed
deriving DecidableEq, Repr

/-- Continuation of `startCameraScanIfPermissionExistsOnSwap` (lines
1011-1035): if the persisted store records permission, the live re-check
runs and its continuation executes.  On `granted = true` the code reads
`this.permissionButton`, which is always `null`, so it logs
`"Permission button not found, fail;"` and throws; the `throw` inside the
`.then` callback is caught by the attached `.catch`, which records
`setHasPermission(false)`.  On `granted = false` or a rejected re-check it
records `setHasPermission(false)` directly.  Without persisted permission
the whole helper is a no-op. -/
def startCameraScanIfPermissionExistsOnSwap
    (s : ScannerState) (o : PermCheckOutcome) : ScannerState :=
  if s.storedHasPermission then
    match o with
    | .resolved true =>
        let s1 := pushLog s "Permission button not found, fail;"
        { s1 with storedHasPermission := false }
    | .resolved false => { s with storedHasPermission := false }
    | .failed => { s with storedHasPermission := false }
  else s

/-- The synchronous steps of the swap handler that run right after the
guard test passes, up to and including `sectionSwapAllowed = false`
(lines 978-981): `resetHeaderMessage()`, `fileSelectionUi.resetValue()`,
then the guard is cleared. -/
def sectionSwapEnter (s : ScannerState) : ScannerState :=
  { s with headerMessage := none
           fileSelectionValue := none
           sectionSwapAllowed := false }

/-- The branch on the current scan type (lines 983-1001), without the
deferred auto-start continuation: camera → file hides the camera region,
shows the file UI, sets the link text and the file image; file → camera
does the reverse. -/
def sectionSwapBody (s : ScannerState) : ScannerState :=
  if s.currentScanType = .camera then
    { s with scpCameraRegionVisible := false
             fileSelectionUiVisible := true
             switchLinkTextCamera := false
             currentScanType := .file
             scanRegionImage := .file }
  else
    { s with scpCameraRegionVisible := true
             fileSelectionUiVisible := false
             switchLinkTextCamera := true
             currentScanType := .camera
             scanRegionImage := .camera }

/-- The full click handler installed on `switchScanTypeLink`
(lines 968-1004), including the later settling of the asynchronous
auto-start attempt.  If the guard is down, the handler only logs (when
verbose) and returns.  Otherwise: `sectionSwapEnter`, the mode branch,
`sectionSwapAllowed = true` (which runs synchronously, before any
asynchronous continuation), and — only when the target mode is camera —
the continuation of `startCameraScanIfPermissionExistsOnSwap` for the
re-check outcome `o`. -/
def sectionSwapClick (s : ScannerState) (o : PermCheckOutcome) : ScannerState :=
  if s.sectionSwapAllowed then
    let s1 := sectionSwapEnter s
    let s2 := sectionSwapBody s1
    let s3 := { s2 with sectionSwapAllowed := true }
    if s.currentScanType = .camera then
      -- swapped to file scanning: no auto-start step
      s3
    else
      startCameraScanIfPermissionExistsOnSwap s3 o
  else
    if s.verbose then pushLog s "Section swap called when not allowed" else s

/-! ## Camera list UI (`createCameraListUi`, lines 587-637) -/

/-- State touched by `createCameraListUi`.  The request-permission button
is tracked as `buttonState`: `none` when absent from the DOM, `some d`
when present with `disabled = d`.  At both call sites the optional
`requestPermissionButton` parameter is passed exactly when such a button
exists (from `createPermissionsUi` no button exists yet and none is
passed; from the button's own click listener the — just disabled —
button is passed), so presence in the DOM and presence of the parameter
coincide and `buttonState` plays both roles. -/
structure ListUiState where
  /-- `scanTypeSelector.hasMoreThanOneScanType()` (fixed by the config). -/
  hasMultipleScanTypes : Bool
  /-- `this.sectionSwapAllowed`. -/
  sectionSwapAllowed : Bool
  /-- `switchScanTypeLink.style.display` equals `"inline-block"`. -/
  switchLinkVisible : Bool
  /-- displayed header message, as in `ScannerState.headerMessage`. -/
  headerMessage : Option (HeaderText × ScannerStatus)
  /-- `persistedDataManager` permission record. -/
  storedHasPermission : Bool
  /-- the request-permission button: `none` = absent,
  `some d` = present with `disabled = d`. -/
  buttonState : Option Bool
  /-- the `requestPermissionContainer` is still attached to
  `scpCameraScanRegion`. -/
  requestContainerAttached : Bool
  /-- `renderCameraSelection(cameras)` was invoked. -/
  camerasRendered : Bool
deriving DecidableEq, Repr

/-- `showHideScanTypeSwapLink(shouldDisplay)` (lines 1067-1077): only
when more than one scan type is configured it sets both the guard
`sectionSwapAllowed` and the link visibility to `shouldDisplay`;
otherwise it does nothing. -/
def showHideScanTypeSwapLink (s : ListUiState) (shouldDisplay : Bool) :
    ListUiState :=
  if s.hasMultipleScanTypes then
    { s with sectionSwapAllowed := shouldDisplay
             switchLinkVisible := shouldDisplay }
  else s

/-- `createPermissionButtonIfNotExists` closure (lines 596-601): when no
button was passed, `createPermissionButton` appends a fresh button
(created enabled, `disabled = false`); otherwise nothing happens. -/
def createPermissionButtonIfNotExists (s : ListUiState) : ListUiState :=
  match s.buttonState with
  | none => { s with buttonState := some false }
  | some _ => s

/-- Outcome of `Html5Qrcode.getCameras()` (device enumeration): the
resolved list of device ids, or the platform error text. -/
inductive EnumOutcome
  | ok (cameras : List String)
  | err (e : String)
deriving DecidableEq, Repr

/-- `createCameraListUi` (lines 587-637), with the enumeration outcome
made explicit.  Synchronous prefix: hide the swap link (clearing the
guard when multi-type) and show the "requesting permission" header.
On resolve: record permission granted, restore the swap link, reset the
header; with at least one camera remove the request container and render
the selection UI; with zero cameras set the "no camera found" warning and
create a button only if none was passed.  On reject: record permission
denied, re-enable a passed button or create one, set the error verbatim
as warning header, restore the swap link. -/
def createCameraListUi (s : ListUiState) (o : EnumOutcome) : ListUiState :=
  let s1 := showHideScanTypeSwapLink s false
  let s2 := { s1 with
              headerMessage := some (.requestingPermission, .statusDefault) }
  match o with
  | .ok cameras =>
      let s3 := { s2 with storedHasPermission := true }
      let s4 := showHideScanTypeSwapLink s3 true
      let s5 := { s4 with headerMessage := none }
      if cameras.length > 0 then
        { s5 with requestContainerAttached := false, camerasRendered := true }
      else
        let s6 := { s5 with
                    headerMessage := some (.noCameraFound, .statusWarning) }
        createPermissionButtonIfNotExists s6
  | .err e =>
      let s3 := { s2 with storedHasPermission := false }
      let s4 :=
        match s3.buttonState with
        | some _ => { s3 with buttonState := some false }
        | none => createPermissionButtonIfNotExists s3
      let s5 := { s4 with headerMessage := some (.errText e, .statusWarning) }
      showHideScanTypeSwapLink s5 true

/-! ## Camera selection and the start button
(`renderCameraSelection`, lines 755-950) -/

/-- Camera capabilities returned by
`html5Qrcode.getRunningTrackCameraCapabilities()` after a successful
start.  Zoom values are real-valued in the platform; embedded as `ℚ`. -/
structure CameraCapabilities where
  torchSupported : Bool
  zoomSupported : Bool
  zoomMin : ℚ
  zoomMax : ℚ
  zoomStep : ℚ
deriving DecidableEq, Repr

/-- Modelled from the spec: `clip` is imported from `./core` (not under
`src/`); per the spec it clamps a value into `[min, max]`. -/
def clip (value lo hi : ℚ) : ℚ :=
  if value < lo then lo else if value > hi then hi else value

/-- Modelled from the spec: the zoom capability's `apply` (in
`./camera/core`, not under `src/`), as forwarded by the slider callback
registered in `renderCameraZoomUiIfSupported`, "clamps `value` into
`[min, max]` before forwarding; out-of-range input is silently clamped,
not rejected".  The returned value is the one forwarded to the track. -/
def applyZoom (caps : CameraCapabilities) (value : ℚ) : ℚ :=
  clip value caps.zoomMin caps.zoomMax

/-- State touched by the start-button click handler installed by
`renderCameraSelection`. -/
structure CameraUiState where
  /-- `scanTypeSelector.hasMoreThanOneScanType()`. -/
  hasMultipleScanTypes : Bool
  /-- `this.sectionSwapAllowed`. -/
  sectionSwapAllowed : Bool
  /-- swap link visibility. -/
  switchLinkVisible : Bool
  /-- displayed header message. -/
  headerMessage : Option (HeaderText × ScannerStatus)
  /-- `persistedDataManager.getLastUsedCameraId()` record. -/
  storedLastCameraId : Option String
  /-- `cameraSelectUi.getValue()`: the currently selected device id. -/
  selectedCameraId : String
  /-- `cameraSelectUi` is disabled. -/
  selectDisabled : Bool
  /-- start button `style.display` is `"inline-block"`. -/
  startBtnVisible : Bool
  /-- start button `disabled`. -/
  startBtnDisabled : Bool
  /-- stop button `style.display` is `"inline-block"`. -/
  stopBtnVisible : Bool
  /-- stop button `disabled`. -/
  stopBtnDisabled : Bool
  /-- a capture session is running (`html5Qrcode.start` succeeded). -/
  scanning : Bool
  /-- config `showTorchButtonIfSupported === true`. -/
  cfgShowTorch : Bool
  /-- config `showZoomSliderIfSupported === true`. -/
  cfgShowZoom : Bool
  /-- config `defaultZoomValueIfSupported` (`none` = undefined). -/
  cfgDefaultZoom : Option ℚ
  /-- the torch button is shown. -/
  torchShown : Bool
  /-- the zoom slider: `none` = hidden, `some (lo, hi, value, step)`
  after `setValues` + `show()`. -/
  zoomUi : Option (ℚ × ℚ × ℚ × ℚ)
deriving DecidableEq, Repr

/-- `showHideScanTypeSwapLink` acting on `CameraUiState` (same code,
lines 1067-1077). -/
def showHideSwapLinkCam (s : CameraUiState) (shouldDisplay : Bool) :
    CameraUiState :=
  if s.hasMultipleScanTypes then
    { s with sectionSwapAllowed := shouldDisplay
             switchLinkVisible := shouldDisplay }
  else s

/-- `resetCameraActionStartButton(shouldShow)` closure (lines 842-854):
restores text and opacity, enables the button, and shows it iff
`shouldShow`. -/
def resetCameraActionStartButton (s : CameraUiState) (shouldShow : Bool) :
    CameraUiState :=
  { s with startBtnDisabled := false, startBtnVisible := shouldShow }

/-- Outcome of `html5Qrcode.start(...)`: on success the capabilities the
code then queries, on failure the platform error text. -/
inductive StartOutcome
  | ok (caps : CameraCapabilities)
  | err (e : String)
deriving DecidableEq, Repr

/-- `renderCameraZoomUiIfSupported` (lines 762-786), run on the
capabilities after a successful start: nothing if zoom is unsupported;
otherwise the slider gets values `(min, max, clip(defaultZoom), step)`
— with `defaultZoom` taken from the (truthy) config value, else `1` —
and is shown. -/
def renderCameraZoomUiIfSupported (s : CameraUiState)
    (caps : CameraCapabilities) : CameraUiState :=
  if caps.zoomSupported then
    let defaultZoom : ℚ :=
      match s.cfgDefaultZoom with
      | some v => if v ≠ 0 then v else 1
      | none => 1
    let dz := clip defaultZoom caps.zoomMin caps.zoomMax
    { s with zoomUi := some (caps.zoomMin, caps.zoomMax, dz, caps.zoomStep) }
  else s

/-- `createAndShowTorchButtonIfSupported` (lines 811-838): shows the
(created or updated) torch button when torch is supported, hides any
existing one when not. -/
def createAndShowTorchButtonIfSupported (s : CameraUiState)
    (caps : CameraCapabilities) : CameraUiState :=
  { s with torchShown := caps.torchSupported }

/-- The start-button click handler (lines 856-902), with the `start`
outcome explicit.  Synchronous prefix: disable the selection and the
start button, hide the swap link (multi-type only), reset the header,
read the selected id and persist it via `setLastUsedCameraId` — all
before `start` is even attempted.  On resolve: enable and show the stop
button, hide the (re-enabled) start button, and render torch/zoom UI as
configured.  On reject: restore the swap link, re-enable the selection,
show the start button again, and set the error verbatim as a warning
header. -/
def cameraActionStartButtonClick (s : CameraUiState) (o : StartOutcome) :
    CameraUiState :=
  let s1 := { s with selectDisabled := true, startBtnDisabled := true }
  let s2 := if s1.hasMultipleScanTypes then showHideSwapLinkCam s1 false else s1
  let s3 := { s2 with headerMessage := none }
  let s4 := { s3 with storedLastCameraId := some s3.selectedCameraId }
  match o with
  | .ok caps =>
      let s5 := { s4 with stopBtnDisabled := false, stopBtnVisible := true }
      let s6 := resetCameraActionStartButton s5 false
      let s7 := { s6 with scanning := true }
      let s8 := if s7.cfgShowTorch then
                  createAndShowTorchButtonIfSupported s7 caps
                else s7
      if s8.cfgShowZoom then renderCameraZoomUiIfSupported s8 caps else s8
  | .err e =>
      let s5 := showHideSwapLinkCam s4 true
      let s6 := { s5 with selectDisabled := false }
      let s7 := resetCameraActionStartButton s6 true
      { s7 with headerMessage := some (.errText e, .statusWarning) }

/-! ## `clear()` (lines 356-397) -/

/-- The pieces of scanner state `clear` inspects and mutates. -/
structure ClearState where
  /-- `this.html5Qrcode` is set (a `render` happened). -/
  hasEngine : Bool
  /-- `this.html5Qrcode.isScanning`. -/
  isScanning : Bool
  /-- `html5Qrcode.clear()` has been invoked on the engine. -/
  engineCleared : Bool
  /-- the container `innerHTML` was emptied and the layout reset
  (`emptyHtmlContainer`). -/
  containerEmptied : Bool
deriving DecidableEq, Repr

/-- Outcome of the underlying `html5Qrcode.stop()` call. -/
inductive StopOutcome
  | ok
  | err (e : String)
deriving DecidableEq, Repr

/-- `clear()` (lines 356-397), with the `stop` outcome explicit.  No
engine: resolve immediately, touch nothing.  Engine scanning: `stop()`
first; on success `html5Qrcode.clear()`, empty the container, resolve;
on failure reject with the same error, leaving the engine handle and the
container untouched.  Engine not scanning (file-based scan assumed):
`html5Qrcode.clear()`, empty the container, resolve. -/
def clearRun (s : ClearState) (o : StopOutcome) :
    Except String Unit × ClearState :=
  if s.hasEngine then
    if s.isScanning then
      match o with
      | .ok =>
          (.ok (), { s with isScanning := false
                            engineCleared := true
                            containerEmptied := true })
      | .err e => (.error e, s)
    else
      (.ok (), { s with engineCleared := true, containerEmptied := true })
  else
    (.ok (), s)

/-! ## Constructor and `createConfig` (lines 230-253, 488-516) -/

/-- The configuration fields of `Html5QrcodeScannerConfig` the
constructor path reads.  `Option` embeds a possibly-`undefined` field. -/
structure ScannerConfig where
  fps : Option ℚ
  rememberLastUsedCamera : Option Bool
  supportedScanTypes : Option (List ScanType)
deriving DecidableEq, Repr

/-- Modelled from the spec: `Html5QrcodeConstants.SCAN_DEFAULT_FPS`
lives in `./core` (not under `src/`); its numeric value is immaterial to
the claims, only that a default is filled in. -/
def scanDefaultFps : ℚ := 2

/-- Modelled from the spec: `Html5QrcodeConstants.DEFAULT_REMEMBER_LAST_CAMERA_USED`
lives in `./core` (not under `src/`); the config documentation in the
source (line 98) states the default value is `true`. -/
def defaultRememberLastCameraUsed : Bool := true

/-- Modelled from the spec:
`Html5QrcodeConstants.DEFAULT_SUPPORTED_SCAN_TYPE` lives in `./core`
(not under `src/`); per the spec the library default order is camera
first, then file. -/
def defaultSupportedScanTypes : List ScanType := [.camera, .file]

/-- `createConfig` (lines 488-516).  With a config object it normalises
the SAME object in place: a falsy `fps` (undefined or `0`) gets the
default; `rememberLastUsedCamera` different from
`!DEFAULT_REMEMBER_LAST_CAMERA_USED` (i.e. different from `false`) is
overwritten with the default `true`; an undefined `supportedScanTypes`
gets the library default.  Without a config it builds the defaults. -/
def createConfig (config : Option ScannerConfig) : ScannerConfig :=
  match config with
  | some c =>
      let c1 := if c.fps.getD 0 = 0 then { c with fps := some scanDefaultFps }
                else c
      let remember := some defaultRememberLastCameraUsed
      let c2 := if c1.rememberLastUsedCamera ≠ some false then
                  { c1 with rememberLastUsedCamera := remember }
                else c1
      if c2.supportedScanTypes = none then
        { c2 with supportedScanTypes := some defaultSupportedScanTypes }
      else c2
  | none =>
      { fps := some scanDefaultFps
        rememberLastUsedCamera := some defaultRememberLastCameraUsed
        supportedScanTypes := some defaultSupportedScanTypes }

/-- Errors a JavaScript execution of the constructor can throw. -/
inductive JsError
  | typeError (msg : String)
  | thrown (msg : String)
deriving DecidableEq, Repr

/-- Modelled from the spec: `ScanTypeSelector` (in
`./ui/scanner/scan-type-selector`, not under `src/`) validates the
requested scan types — failing for an empty explicitly-provided set or
duplicates — and returns the ordered set, whose first element is the
default scan type. -/
def scanTypeSelectorMake (requested : Option (List ScanType)) :
    Except String (List ScanType) :=
  match requested with
  | none => .ok defaultSupportedScanTypes
  | some l =>
      if l = [] then .error "Empty scan type list"
      else if l.Nodup then .ok l
      else .error "Duplicate scan types"

/-- Result of a successful constructor run. -/
structure CtorResult where
  config : ScannerConfig
  currentScanType : ScanType
  sectionSwapAllowed : Bool
  /-- `persistedDataManager.reset()` was invoked. -/
  persistedReset : Bool
deriving DecidableEq, Repr

/-- The constructor (lines 230-253) for a valid container element, with
JavaScript evaluation semantics.  It builds `this.config` via
`createConfig`, constructs the `ScanTypeSelector` (which may throw),
takes the default scan type, arms the swap guard — and then evaluates
`config!.rememberLastUsedCamera !== true` on the ORIGINAL `config`
argument, not on `this.config`: for `undefined` this property access
throws a `TypeError`; for a supplied object it reads the value
`createConfig` normalised in place (same reference). -/
def scannerCtor (config : Option ScannerConfig) : Except JsError CtorResult :=
  let cfg := createConfig config
  match scanTypeSelectorMake cfg.supportedScanTypes with
  | .error e => .error (.thrown e)
  | .ok types =>
      match types with
      | [] => .error (.thrown "Empty scan type list")
      | t :: _ =>
          match config with
          | none =>
              .error (.typeError
                "Cannot read properties of undefined (reading rememberLastUsedCamera)")
          | some _ =>
              .ok { config := cfg
                    currentScanType := t
                    sectionSwapAllowed := true
                    persistedReset := cfg.rememberLastUsedCamera ≠ some true }

/-! ## `render`'s success-callback wrapper (lines 263-301) -/

/-- The state the wrapper reads and writes. -/
structure RenderCbState where
  /-- `this.lastMatchFound`. -/
  lastMatchFound : Option String
  /-- displayed header message. -/
  headerMessage : Option (HeaderText × ScannerStatus)
deriving DecidableEq, Repr

/-- `render` begins with `this.lastMatchFound = null` (line 266). -/
def renderInitLastMatch (s : RenderCbState) : RenderCbState :=
  { s with lastMatchFound := none }

/-- The wrapper installed as `this.qrCodeSuccessCallback` (lines
269-283), for one decode result.  `hasCallerCallback` records whether
the caller supplied `qrCodeSuccessCallback` to `render`.  The returned
`Bool` is whether the result was forwarded to the caller's callback.
With a caller callback every result is forwarded, nothing else happens.
Without one, a result equal to `lastMatchFound` is dropped; otherwise
`lastMatchFound` is updated and the "last match" header is shown with
success status. -/
def qrCodeSuccessCallbackWrapper (hasCallerCallback : Bool)
    (s : RenderCbState) (decodedText : String) : RenderCbState × Bool :=
  if hasCallerCallback then
    (s, true)
  else
    if s.lastMatchFound = some decodedText then
      (s, false)
    else
      ({ s with lastMatchFound := some decodedText
                headerMessage := some (.lastMatch decodedText, .statusSuccess) },
       false)

/-! ## Concrete states used to instantiate the theorems -/

/-- A scanner in file mode with the swap guard armed and persisted
camera permission recorded — the entry state of a file → camera swap. -/
def demoScannerState : ScannerState :=
  { currentScanType := .file
    sectionSwapAllowed := true
    verbose := false
    scpCameraRegionVisible := false
    fileSelectionUiVisible := true
    fileSelectionValue := some "photo.png"
    headerMessage := none
    switchLinkTextCamera := false
    scanRegionImage := .file
    storedHasPermission := true
    errorLog := [] }

/-- An idle camera UI with a selected device and nothing persisted. -/
def demoCameraUiState : CameraUiState :=
  { hasMultipleScanTypes := true
    sectionSwapAllowed := true
    switchLinkVisible := true
    headerMessage := none
    storedLastCameraId := none
    selectedCameraId := "cam1"
    selectDisabled := false
    startBtnVisible := true
    startBtnDisabled := false
    stopBtnVisible := false
    stopBtnDisabled := true
    scanning := false
    cfgShowTorch := false
    cfgShowZoom := false
    cfgDefaultZoom := none
    torchShown := false
    zoomUi := none }

/-- The list-UI state right after the user clicked an existing
request-permission button: the click listener disabled the button
(`some true`) before calling `createCameraListUi`. -/
def demoListUiClicked : ListUiState :=
  { hasMultipleScanTypes := true
    sectionSwapAllowed := false
    switchLinkVisible := false
    headerMessage := some (.requestingPermission, .statusDefault)
    storedHasPermission := false
    buttonState := some true
    requestContainerAttached := true
    camerasRendered := false }

/-- The list-UI state when `createCameraListUi` is reached from
`createPermissionsUi` with persisted permission: no request-permission
button exists yet. -/
def demoListUiNoButton : ListUiState :=
  { hasMultipleScanTypes := true
    sectionSwapAllowed := true
    switchLinkVisible := true
    headerMessage := none
    storedHasPermission := true
    buttonState := none
    requestContainerAttached := true
    camerasRendered := false }

/-- A camera with zoom support over `[1, 5]`. -/
def demoCaps : CameraCapabilities :=
  { torchSupported := false
    zoomSupported := true
    zoomMin := 1
    zoomMax := 5
    zoomStep := 1 }

/-- An empty (all fields undefined) but present config object. -/
def demoCfg : ScannerConfig :=
  { fps := none, rememberLastUsedCamera := none, supportedScanTypes := none }

/-- A render-callback state that already reported the match "abc". -/
def demoRenderCbState : RenderCbState :=
  { lastMatchFound := some "abc"
    headerMessage := some (.lastMatch "abc", .statusSuccess) }

/-! ## Helper lemmas -/

/-- The asynchronous auto-start continuation never touches the swap
guard: it only rewrites the persisted permission and the log. -/
theorem autoStartOnSwap_preserves_guard (s : ScannerState)
    (o : PermCheckOutcome) :
    (startCameraScanIfPermissionExistsOnSwap s o).sectionSwapAllowed
      = s.sectionSwapAllowed := by
  unfold startCameraScanIfPermissionExistsOnSwap
  split
  · cases o with
    | resolved granted => cases granted <;> rfl
    | failed => rfl
  · rfl

/-- Logging does not change the log-stripped state. -/
theorem stripLog_pushLog (s : ScannerState) (m : String) :
    stripLog (pushLog s m) = stripLog s := rfl

/-! ## Theorems for the claims -/

/-- Claim C1: for every mode-switch request accepted by the swap handler
(the guard was `true` on entry), the guard is `false` right after the
entry steps of the transition, is `true` again once the transition —
including the deferred auto-start continuation, whatever its outcome —
has settled, and a second request arriving while the guard is down
changes nothing but the log, so at most one transition is in flight. -/
theorem sectionSwap_guard_invariant (s : ScannerState) (o o2 : PermCheckOutcome)
    (h : s.sectionSwapAllowed = true) :
    (sectionSwapEnter s).sectionSwapAllowed = false ∧
    (sectionSwapClick s o).sectionSwapAllowed = true ∧
    stripLog (sectionSwapClick (sectionSwapEnter s) o2)
      = stripLog (sectionSwapEnter s) := by
  refine ⟨rfl, ?_, ?_⟩
  · unfold sectionSwapClick
    rw [h]
    simp only [if_true]
    split
    · rfl
    · rw [autoStartOnSwap_preserves_guard]
  · unfold sectionSwapClick
    have hg : (sectionSwapEnter s).sectionSwapAllowed = false := rfl
    rw [hg]
    simp only [Bool.false_eq_true, if_false]
    split
    · exact stripLog_pushLog _ _
    · rfl

/-- Witness for C1 at the concrete file → camera entry state. -/
theorem sectionSwap_guard_invariant_witness :
    (sectionSwapEnter demoScannerState).sectionSwapAllowed = false ∧
    (sectionSwapClick demoScannerState .failed).sectionSwapAllowed = true ∧
    stripLog (sectionSwapClick (sectionSwapEnter demoScannerState) .failed)
      = stripLog (sectionSwapEnter demoScannerState) :=
  sectionSwap_guard_invariant demoScannerState .failed .failed rfl

/-- Claim C2: a swap request while the guard is down leaves the active
scan type, the camera-region visibility, the file-selection UI, the
header message and the pending file-selection value unchanged — indeed
the whole state up to the optional diagnostic log entry. -/
theorem sectionSwap_noop_when_guard_down (s : ScannerState)
    (o : PermCheckOutcome) (h : s.sectionSwapAllowed = false) :
    (sectionSwapClick s o).currentScanType = s.currentScanType ∧
    (sectionSwapClick s o).scpCameraRegionVisible = s.scpCameraRegionVisible ∧
    (sectionSwapClick s o).fileSelectionUiVisible = s.fileSelectionUiVisible ∧
    (sectionSwapClick s o).headerMessage = s.headerMessage ∧
    (sectionSwapClick s o).fileSelectionValue = s.fileSelectionValue ∧
    stripLog (sectionSwapClick s o) = stripLog s := by
  cases hv : s.verbose <;>
    simp [sectionSwapClick, h, hv, stripLog, pushLog]

/-- Witness for C2 at the mid-transition state of the demo swap. -/
theorem sectionSwap_noop_witness :
    (sectionSwapClick (sectionSwapEnter demoScannerState) .failed).currentScanType
      = (sectionSwapEnter demoScannerState).currentScanType ∧
    (sectionSwapClick (sectionSwapEnter demoScannerState) .failed).scpCameraRegionVisible
      = (sectionSwapEnter demoScannerState).scpCameraRegionVisible ∧
    (sectionSwapClick (sectionSwapEnter demoScannerState) .failed).fileSelectionUiVisible
      = (sectionSwapEnter demoScannerState).fileSelectionUiVisible ∧
    (sectionSwapClick (sectionSwapEnter demoScannerState) .failed).headerMessage
      = (sectionSwapEnter demoScannerState).headerMessage ∧
    (sectionSwapClick (sectionSwapEnter demoScannerState) .failed).fileSelectionValue
      = (sectionSwapEnter demoScannerState).fileSelectionValue ∧
    stripLog (sectionSwapClick (sectionSwapEnter demoScannerState) .failed)
      = stripLog (sectionSwapEnter demoScannerState) :=
  sectionSwap_noop_when_guard_down (sectionSwapEnter demoScannerState) .failed rfl

/-- Claim C3 (code bug): swapping file → camera with persisted
permission and a live re-check that reports still granted does NOT
auto-start — `this.permissionButton` is never assigned in the class, so
the handler logs "Permission button not found, fail;", the thrown error
lands in the `.catch`, and the code records `setHasPermission(false)`
as if permission had been revoked. -/
theorem autoStartOnSwap_button_missing :
    (sectionSwapClick demoScannerState (.resolved true)).currentScanType
      = .camera ∧
    (sectionSwapClick demoScannerState (.resolved true)).storedHasPermission
      = false ∧
    (sectionSwapClick demoScannerState (.resolved true)).errorLog
      = ["Permission button not found, fail;"] := by
  decide

/-- Claim C4, counterexample: the device id is persisted via
`setLastUsedCameraId` BEFORE `start` is attempted, so a failing start
still persists it — refuting "persisted exactly when the underlying
start succeeds". -/
theorem startClick_persists_despite_failure :
    (cameraActionStartButtonClick demoCameraUiState
        (.err "NotReadableError")).storedLastCameraId = some "cam1" ∧
    (cameraActionStartButtonClick demoCameraUiState
        (.err "NotReadableError")).scanning = false := by
  decide

/-- Claim C4 as amended: the chosen device id is persisted
unconditionally before the underlying start is attempted (hence on
success and on failure alike); on failure the session is not running,
the UI returns to the manual-start state (start button shown and
enabled, selection enabled) and the platform error is surfaced verbatim
as a warning header; on success the session is running. -/
theorem startClick_spec (s : CameraUiState) (o : StartOutcome) :
    (cameraActionStartButtonClick s o).storedLastCameraId
      = some s.selectedCameraId ∧
    (∀ e, o = .err e →
      (cameraActionStartButtonClick s o).scanning = s.scanning ∧
      (cameraActionStartButtonClick s o).headerMessage
        = some (.errText e, .statusWarning) ∧
      (cameraActionStartButtonClick s o).startBtnVisible = true ∧
      (cameraActionStartButtonClick s o).startBtnDisabled = false ∧
      (cameraActionStartButtonClick s o).selectDisabled = false) ∧
    (∀ caps, o = .ok caps →
      (cameraActionStartButtonClick s o).scanning = true) := by
  refine ⟨?_, fun e he => ?_, fun caps hc => ?_⟩
  · cases o <;>
      simp only [cameraActionStartButtonClick, showHideSwapLinkCam,
        resetCameraActionStartButton, createAndShowTorchButtonIfSupported,
        renderCameraZoomUiIfSupported] <;>
      split_ifs <;> rfl
  · subst he
    refine ⟨?_, ?_, ?_, ?_, ?_⟩ <;>
      (simp only [cameraActionStartButtonClick, showHideSwapLinkCam,
        resetCameraActionStartButton];
       try split_ifs <;> rfl)
  · subst hc
    simp only [cameraActionStartButtonClick, showHideSwapLinkCam,
      resetCameraActionStartButton, createAndShowTorchButtonIfSupported,
      renderCameraZoomUiIfSupported]
    split_ifs <;> rfl

/-- Witness for C4's amended theorem on a concrete failing start. -/
theorem startClick_spec_witness :
    (cameraActionStartButtonClick demoCameraUiState
        (.err "DeviceBusy")).storedLastCameraId = some "cam1" ∧
    (cameraActionStartButtonClick demoCameraUiState
        (.err "DeviceBusy")).headerMessage
      = some (.errText "DeviceBusy", .statusWarning) :=
  ⟨(startClick_spec demoCameraUiState (.err "DeviceBusy")).1,
   ((startClick_spec demoCameraUiState (.err "DeviceBusy")).2.1
      "DeviceBusy" rfl).2.1⟩

/-- Claim C5: `clear()` with no engine resolves immediately and changes
nothing; with an active scan it stops first and empties the container
exactly on stop success; a failed stop makes `clear()` reject with that
error, leaving the engine handle and the rendered container intact;
with an engine but no active scan it clears and resolves. -/
theorem clear_spec (s : ClearState) (o : StopOutcome) :
    (s.hasEngine = false → clearRun s o = (.ok (), s)) ∧
    (s.hasEngine = true → s.isScanning = true → o = .ok →
      clearRun s o = (.ok (), { s with isScanning := false
                                       engineCleared := true
                                       containerEmptied := true })) ∧
    (∀ e, s.hasEngine = true → s.isScanning = true → o = .err e →
      clearRun s o = (.error e, s)) ∧
    (s.hasEngine = true → s.isScanning = false →
      clearRun s o = (.ok (), { s with engineCleared := true
                                       containerEmptied := true })) := by
  refine ⟨fun h1 => ?_, fun h1 h2 h3 => ?_, fun e h1 h2 h3 => ?_,
    fun h1 h2 => ?_⟩ <;>
    simp [clearRun, h1]
  · subst h3; simp [h2]
  · subst h3; simp [h2]
  · simp [h2]

/-- Witness for C5: a failed stop on an active scan leaves everything
intact and rejects with the same error. -/
theorem clear_spec_witness :
    clearRun ⟨true, true, false, false⟩ (.err "stop failed")
      = (.error "stop failed", ⟨true, true, false, false⟩) :=
  (clear_spec ⟨true, true, false, false⟩ (.err "stop failed")).2.2.1
    "stop failed" rfl rfl rfl

/-- Claim C6: every failed device enumeration records
`setHasPermission(false)`, sets the platform error verbatim as a warning
header, and leaves an enabled request-permission button behind — the
passed button re-enabled, or a fresh (enabled) one created when none was
passed. -/
theorem createCameraListUi_enum_failure (s : ListUiState) (e : String) :
    (createCameraListUi s (.err e)).storedHasPermission = false ∧
    (createCameraListUi s (.err e)).headerMessage
      = some (.errText e, .statusWarning) ∧
    (createCameraListUi s (.err e)).buttonState = some false := by
  unfold createCameraListUi
  cases hb : s.buttonState <;>
    simp [showHideScanTypeSwapLink, createPermissionButtonIfNotExists, hb] <;>
    split_ifs <;> simp [hb]

/-- Claim C7, counterexample: when enumeration succeeds with zero
devices and the request-permission button already exists (it was
disabled by its own click listener), the zero-device path leaves it
disabled — the affordance is present but NOT usable for retry. -/
theorem zeroCameras_button_left_disabled :
    (createCameraListUi demoListUiClicked (.ok [])).buttonState = some true ∧
    (createCameraListUi demoListUiClicked (.ok [])).headerMessage
      = some (.noCameraFound, .statusWarning) := by
  decide

/-- Claim C7 as amended: on a successful enumeration returning zero
devices, the header becomes the "no camera found" warning, permission is
still recorded as granted, the swap guard is restored to `true` (when
more than one scan type is configured), and the request-permission
affordance is present — created enabled if it did not exist, while an
existing button keeps its previous disabled state and is not re-enabled. -/
theorem zeroCameras_spec (s : ListUiState) :
    (createCameraListUi s (.ok [])).headerMessage
      = some (.noCameraFound, .statusWarning) ∧
    (createCameraListUi s (.ok [])).storedHasPermission = true ∧
    (createCameraListUi s (.ok [])).buttonState
      = some (s.buttonState.getD false) ∧
    (s.hasMultipleScanTypes = true →
      (createCameraListUi s (.ok [])).sectionSwapAllowed = true) := by
  unfold createCameraListUi
  cases hb : s.buttonState <;>
    simp [showHideScanTypeSwapLink, createPermissionButtonIfNotExists, hb] <;>
    split_ifs with h1 <;> simp_all

/-- Witness for C7's amended theorem: from the persisted-permission path
(no button yet), a fresh enabled button is created and the guard is
restored. -/
theorem zeroCameras_spec_witness :
    (createCameraListUi demoListUiNoButton (.ok [])).headerMessage
      = some (.noCameraFound, .statusWarning) ∧
    (createCameraListUi demoListUiNoButton (.ok [])).buttonState
      = some false ∧
    (createCameraListUi demoListUiNoButton (.ok [])).sectionSwapAllowed
      = true :=
  ⟨(zeroCameras_spec demoListUiNoButton).1,
   (zeroCameras_spec demoListUiNoButton).2.2.1,
   (zeroCameras_spec demoListUiNoButton).2.2.2 rfl⟩

/-- Claim C8: `applyZoom` clamps into `[min, max]` before forwarding:
applying `min - 1` forwards the same value as applying `min`, applying
`max + 1` the same as `max`, applying twice equals applying once, and
every forwarded value lies in `[min, max]`. -/
theorem applyZoom_clamps_and_idempotent (caps : CameraCapabilities)
    (h : caps.zoomMin ≤ caps.zoomMax) (v : ℚ) :
    applyZoom caps (caps.zoomMin - 1) = applyZoom caps caps.zoomMin ∧
    applyZoom caps (caps.zoomMax + 1) = applyZoom caps caps.zoomMax ∧
    applyZoom caps (applyZoom caps v) = applyZoom caps v ∧
    caps.zoomMin ≤ applyZoom caps v ∧
    applyZoom caps v ≤ caps.zoomMax := by
  unfold applyZoom clip
  refine ⟨?_, ?_, ?_, ?_, ?_⟩ <;> split_ifs <;> linarith

/-- Witness for C8 on the `[1, 5]` zoom range. -/
theorem applyZoom_witness :
    applyZoom demoCaps (demoCaps.zoomMin - 1) = applyZoom demoCaps demoCaps.zoomMin ∧
    applyZoom demoCaps (demoCaps.zoomMax + 1) = applyZoom demoCaps demoCaps.zoomMax ∧
    applyZoom demoCaps (applyZoom demoCaps 7) = applyZoom demoCaps 7 :=
  ⟨(applyZoom_clamps_and_idempotent demoCaps (by norm_num [demoCaps]) 7).1,
   (applyZoom_clamps_and_idempotent demoCaps (by norm_num [demoCaps]) 7).2.1,
   (applyZoom_clamps_and_idempotent demoCaps (by norm_num [demoCaps]) 7).2.2.1⟩

/-- Claim C9: constructing with `config = undefined` always throws — the
constructor builds the default configuration with `createConfig` but
then reads `rememberLastUsedCamera` off the original `undefined`
argument, a `TypeError` — while a supplied (even empty) config object
constructs successfully; since `undefined` is the only non-object
config, construction succeeds only when a config object is supplied. -/
theorem ctor_undefined_config_throws :
    scannerCtor none
      = .error (.typeError
          "Cannot read properties of undefined (reading rememberLastUsedCamera)") ∧
    (scannerCtor (some demoCfg)).isOk = true :=
  ⟨rfl, rfl⟩

/-- Claim C10: with a caller-supplied success callback the wrapper
forwards every result and changes nothing; without one, a result equal
to the last reported match is dropped (header untouched), otherwise the
match is recorded and the success header shown; `render()` resets
`lastMatchFound`. -/
theorem renderCallbackWrapper_spec (s : RenderCbState) (t : String) :
    qrCodeSuccessCallbackWrapper true s t = (s, true) ∧
    (s.lastMatchFound = some t →
      qrCodeSuccessCallbackWrapper false s t = (s, false)) ∧
    (s.lastMatchFound ≠ some t →
      qrCodeSuccessCallbackWrapper false s t
        = ({ s with lastMatchFound := some t
                    headerMessage :=
                      some (.lastMatch t, .statusSuccess) }, false)) ∧
    (renderInitLastMatch s).lastMatchFound = none := by
  refine ⟨rfl, fun h => ?_, fun h => ?_, rfl⟩ <;>
    simp [qrCodeSuccessCallbackWrapper, h]

/-- Witness for C10: a repeat of the last reported match is dropped. -/
theorem renderCallbackWrapper_witness :
    qrCodeSuccessCallbackWrapper false demoRenderCbState "abc"
      = (demoRenderCbState, false) :=
  (renderCallbackWrapper_spec demoRenderCbState "abc").2.1 rfl

end HtmlQrcodeScanner
